import Mathlib

/-!
Verification of the request-admission and resilience layer of the ad-copy gateway:
a shallow embedding of the per-user rate limiter and per-IP limiter
(rate-limiter.ts), the per-provider circuit breaker (circuit-breaker.ts), the
per-user bounded concurrency queue (request-queue), the metrics percentile
computation (metrics.ts) and the cooldown-gated alert manager (alerting.ts),
together with theorems settling the stated properties.

Timestamps are embedded as `Int` (JavaScript `Date.now()` arithmetic), counters
as `Nat`.  Fallible store operations are embedded as explicit `Except` values;
the `try`/`catch` blocks of the source become total functions on those values.
-/

namespace RateLimiter

/-- Entry of the in-memory per-user cache, mirroring `RateLimitEntry` of
rate-limiter.ts: `count`, `windowStart`, `lastUpdated`, `dbSyncCount`. -/
structure RateLimitEntry where
  count : Nat
  windowStart : Int
  lastUpdated : Int
  dbSyncCount : Nat
deriving DecidableEq, Repr

def WINDOW_MS : Int := 24 * 60 * 60 * 1000

def CACHE_TTL_MS : Int := 60 * 1000

def DB_SYNC_INTERVAL : Nat := 10

def DAILY_LIMIT : Nat := 50

/-- Embeds `RateLimiter.fetchFromDB`: the durable-store read outcome is passed
in as an `Except` value (`error` = the query threw, `ok none` = no row,
`ok (some c)` = row with `request_count = c`).  Every branch of the source's
`try`/`catch` returns an entry; read failure and missing data both yield a
fresh zero-count entry. -/
def fetchFromDB (read : Except Unit (Option Nat)) (now : Int) : RateLimitEntry :=
  match read with
  | Except.error _ => { count := 0, windowStart := now, lastUpdated := now, dbSyncCount := 0 }
  | Except.ok none => { count := 0, windowStart := now, lastUpdated := now, dbSyncCount := 0 }
  | Except.ok (some c) => { count := c, windowStart := now, lastUpdated := now, dbSyncCount := 0 }

/-- Embeds `RateLimiter.syncToDB`: the upsert either succeeds or fails, and the
source catches and logs every failure, so the function is total and returns
`Unit` regardless of the write outcome. -/
def syncToDB (writeOk : Bool) : Unit :=
  match writeOk with
  | true => ()
  | false => ()

/-- Embeds `RateLimiter.checkLimit` for one user: `cache` is the user's cache
slot, `read` the durable-store read outcome used on a cache miss or stale
entry, `writeOk` the durable-store write outcome, `now` the clock.  Returns
`((allowed, remaining), entry)` where `entry` is the cache slot after the
call. -/
def checkLimit (cache : Option RateLimitEntry) (read : Except Unit (Option Nat))
    (writeOk : Bool) (now : Int) : (Bool × Nat) × RateLimitEntry :=
  let entry0 : RateLimitEntry :=
    match cache with
    | none => fetchFromDB read now
    | some e => if now - e.lastUpdated > CACHE_TTL_MS then fetchFromDB read now else e
  let entry1 : RateLimitEntry :=
    if now - entry0.windowStart > WINDOW_MS then
      { entry0 with count := 0, windowStart := now, dbSyncCount := 0 }
    else entry0
  let allowed : Bool := decide (entry1.count < DAILY_LIMIT)
  let entry2 : RateLimitEntry :=
    if allowed then
      let e : RateLimitEntry :=
        { entry1 with
          count := entry1.count + 1
          dbSyncCount := entry1.dbSyncCount + 1
          lastUpdated := now }
      if DB_SYNC_INTERVAL ≤ e.dbSyncCount ∨ now - e.windowStart > 5 * 60 * 1000 then
        let _ := syncToDB writeOk
        { e with dbSyncCount := 0 }
      else e
    else entry1
  ((allowed, DAILY_LIMIT - entry2.count), entry2)

end RateLimiter

namespace IPRateLimiter

/-- Entry of the in-memory per-IP cache, mirroring `IPRateLimitEntry` of
rate-limiter.ts: `count`, `windowStart`, `violations`. -/
structure IPRateLimitEntry where
  count : Nat
  windowStart : Int
  violations : Nat
deriving DecidableEq, Repr

def WINDOW_MS : Int := 60 * 60 * 1000

def HOURLY_LIMIT : Nat := 100

def BURST_LIMIT : Nat := 50

def BURST_WINDOW_MS : Int := 10 * 1000

/-- The per-IP cache, as a finitely supported assignment of entries to IPs. -/
def IPCache : Type := String → Option IPRateLimitEntry

def emptyCache : IPCache := fun _ => none

def setEntry (cache : IPCache) (ip : String) (e : IPRateLimitEntry) : IPCache :=
  fun k => if k = ip then some e else cache k

/-- Embeds `IPRateLimiter.checkLimit`: an empty IP short-circuits to allowed; a
missing or hourly-expired entry is replaced by a fresh one; burst traffic
(`count > BURST_LIMIT` within the first `BURST_WINDOW_MS` of the window) is
rejected with the burst reason and bumps `violations`; `count ≥ HOURLY_LIMIT`
is rejected with the hourly reason; otherwise the request is admitted and
`count` incremented.  Returns `((allowed, reason), cache)` with the cache after
the call (the source mutates the entry in place; the functional embedding
writes the final entry back). -/
def checkLimit (cache : IPCache) (ip : String) (now : Int) :
    (Bool × Option String) × IPCache :=
  if ip = "" then ((true, none), cache)
  else
    let entry : IPRateLimitEntry :=
      match cache ip with
      | none => { count := 0, windowStart := now, violations := 0 }
      | some e =>
        if now - e.windowStart > WINDOW_MS then
          { count := 0, windowStart := now, violations := 0 }
        else e
    if BURST_LIMIT < entry.count ∧ now - entry.windowStart < BURST_WINDOW_MS then
      ((false, some "Burst traffic detected. Please slow down."),
        setEntry cache ip { entry with violations := entry.violations + 1 })
    else if HOURLY_LIMIT ≤ entry.count then
      ((false, some "Hourly IP limit exceeded. Try again later."),
        setEntry cache ip entry)
    else
      ((true, none), setEntry cache ip { entry with count := entry.count + 1 })

/-- Iterates `checkLimit` `n` times for the same IP at the same instant,
keeping only the cache (used to build concrete reachable caches). -/
def admitIter (cache : IPCache) (ip : String) (now : Int) : Nat → IPCache
  | 0 => cache
  | n + 1 => (checkLimit (admitIter cache ip now n) ip now).2

end IPRateLimiter

namespace CircuitBreaker

/-- Mirrors the `CircuitState` enum of circuit-breaker.ts. -/
inductive CircuitState where
  | CLOSED
  | OPEN
  | HALF_OPEN
deriving DecidableEq, Repr

/-- Mirrors `CircuitBreakerState` of circuit-breaker.ts. -/
structure CBState where
  state : CircuitState
  failures : Nat
  lastFailureTime : Int
  lastSuccessTime : Int
deriving DecidableEq, Repr

def FAILURE_THRESHOLD : Nat := 5

def TIMEOUT_MS : Int := 60 * 1000

/-- Embeds `Math.ceil(x / 1000)` on integer milliseconds. -/
def ceilSeconds (x : Int) : Int := -(Int.fdiv (-x) 1000)

/-- Embeds the fresh circuit created by `getCircuit` on first use. -/
def initCircuit (now : Int) : CBState :=
  { state := CircuitState.CLOSED, failures := 0, lastFailureTime := 0, lastSuccessTime := now }

/-- Embeds lines 39-51 of `CircuitBreaker.execute`: the OPEN-state check.
`error w` is the thrown circuit-open rejection carrying the remaining wait in
seconds; `ok c1` is the circuit with which the call proceeds. -/
def openCheck (c : CBState) (now : Int) : Except Int CBState :=
  if c.state = CircuitState.OPEN then
    if now - c.lastFailureTime > TIMEOUT_MS then
      Except.ok { c with state := CircuitState.HALF_OPEN, failures := 0 }
    else
      Except.error (ceilSeconds (TIMEOUT_MS - (now - c.lastFailureTime)))
  else Except.ok c

/-- Embeds `CircuitBreaker.onSuccess`. -/
def onSuccess (c : CBState) (now : Int) : CBState :=
  let c1 : CBState := { c with failures := 0, lastSuccessTime := now }
  if c1.state = CircuitState.HALF_OPEN then { c1 with state := CircuitState.CLOSED } else c1

/-- Embeds `CircuitBreaker.onFailure`. -/
def onFailure (c : CBState) (now : Int) : CBState :=
  let c1 : CBState :=
    { c with failures := c.failures + 1, lastFailureTime := now }
  if FAILURE_THRESHOLD ≤ c1.failures then { c1 with state := CircuitState.OPEN } else c1

/-- Outcome of one `execute` call: the operation's value, the operation's own
error propagated, or the breaker's circuit-open rejection with the stated
remaining wait in seconds. -/
inductive CBResult (T : Type) where
  | ok (t : T)
  | opFailed
  | rejectedOpen (waitSeconds : Int)
deriving DecidableEq, Repr

/-- Embeds `CircuitBreaker.execute` for one provider's circuit: `opResult` is
the outcome the supplied operation would have if invoked.  Returns the call
result, the circuit after the call, and whether the operation was invoked. -/
def execute {T : Type} (c : CBState) (now : Int) (opResult : Except Unit T) :
    CBResult T × CBState × Bool :=
  match openCheck c now with
  | Except.error w => (CBResult.rejectedOpen w, c, false)
  | Except.ok c1 =>
    match opResult with
    | Except.ok t => (CBResult.ok t, onSuccess c1 now, true)
    | Except.error _ => (CBResult.opFailed, onFailure c1 now, true)

/-- Folds a sequence of failing `execute` calls (operation always throws) over
the circuit, keeping the circuit state. -/
def failSeq (c : CBState) (ts : List Int) : CBState :=
  List.foldl (fun s t => (execute s t (Except.error () : Except Unit Unit)).2.1) c ts

end CircuitBreaker

namespace RequestQueue

def MAX_CONCURRENT_PER_USER : Nat := 3

def MAX_QUEUE_SIZE : Nat := 10

def TIMEOUT_MS : Int := 60 * 1000

/-- State of one user's slot in the request queue: `processing` is the
in-flight count tracked by `executeRequest`, `queue` the waiting entries
(their enqueue timestamps, head = oldest), and `zombies` counts timed-out
operations whose underlying work keeps running while their result has been
discarded (they are no longer counted in `processing`). -/
structure QueueState where
  processing : Nat
  queue : List Int
  zombies : Nat
deriving DecidableEq, Repr

def initState : QueueState := { processing := 0, queue := [], zombies := 0 }

/-- Outcome of one `enqueue` call: run immediately, parked in the waiting
list, or rejected because the waiting list is full (the source throws
`Request queue is full. Please try again in a few moments.`). -/
inductive EnqueueOutcome where
  | runNow
  | queued
  | rejectedFull
deriving DecidableEq, Repr

/-- Embeds `RequestQueue.enqueue` for one user: below the concurrency limit
the operation starts at once (`executeRequest` increments `processing`);
otherwise, with a full waiting list, the call throws without adding an entry;
otherwise the request is appended to the waiting list. -/
def enqueue (s : QueueState) (now : Int) : EnqueueOutcome × QueueState :=
  if s.processing < MAX_CONCURRENT_PER_USER then
    (EnqueueOutcome.runNow, { s with processing := s.processing + 1 })
  else if MAX_QUEUE_SIZE ≤ s.queue.length then
    (EnqueueOutcome.rejectedFull, s)
  else
    (EnqueueOutcome.queued, { s with queue := s.queue ++ [now] })

/-- Embeds the `finally` block of `executeRequest` followed by `processNext`:
the settling operation (success, failure or timeout) decrements `processing`
(`(get ∥ 1) - 1`, floored at zero), then the oldest waiting entry, if any and
if under the concurrency limit, is released and its `executeRequest`
increments `processing` again. -/
def settle (s : QueueState) : QueueState :=
  let p : Nat := s.processing - 1
  match s.queue with
  | [] => { s with processing := p }
  | _ :: rest =>
    if p < MAX_CONCURRENT_PER_USER then
      { s with processing := p + 1, queue := rest }
    else
      { s with processing := p }

/-- Events of the queue's step relation: an enqueue attempt, an in-flight
operation completing (or failing), and an in-flight operation timing out (the
race settles against it; its underlying work keeps running as a zombie). -/
inductive QEvent where
  | enqueue (now : Int)
  | complete
  | timeout
deriving DecidableEq, Repr

def step (s : QueueState) (e : QEvent) : QueueState :=
  match e with
  | QEvent.enqueue now => (enqueue s now).2
  | QEvent.complete => settle s
  | QEvent.timeout =>
    let s1 : QueueState := settle s
    { s1 with zombies := s1.zombies + 1 }

/-- Runs the queue's step relation from the initial empty state. -/
def runQ (evs : List QEvent) : QueueState :=
  List.foldl step initState evs

/-- The inductive invariant of one user's queue slot: at most
`MAX_CONCURRENT_PER_USER` operations in flight and at most `MAX_QUEUE_SIZE`
waiting entries. -/
def QInv (s : QueueState) : Prop :=
  s.processing ≤ MAX_CONCURRENT_PER_USER ∧ s.queue.length ≤ MAX_QUEUE_SIZE

end RequestQueue

namespace MetricsCollector

/-- Embeds `MetricsCollector.calculatePercentile`: sort ascending, take index
`ceil(percentile / 100 * n) - 1` clamped to at least 0 (`Nat` subtraction is
the clamp), and 0 for an empty list. -/
def calculatePercentile (values : List Nat) (percentile : Nat) : Nat :=
  if values.length = 0 then 0
  else
    let sorted : List Nat := List.insertionSort (fun a b => a ≤ b) values
    let index : Nat := (percentile * values.length + 99) / 100 - 1
    sorted.getD index 0

end MetricsCollector

namespace AlertManager

/-- Mirrors `AlertState` of alerting.ts. -/
structure AlertState where
  lastAlertTime : Int
  alertCount : Nat
deriving DecidableEq, Repr

def COOLDOWN_MS : Int := 15 * 60 * 1000

def ERROR_RATE_THRESHOLD : ℚ := 10

def RATE_LIMIT_BREACH_THRESHOLD : Nat := 100

/-- The per-alert-key cooldown table. -/
def AlertStates : Type := String → Option AlertState

def setState (st : AlertStates) (k : String) (v : AlertState) : AlertStates :=
  fun k2 => if k2 = k then some v else st k2

/-- Embeds `AlertManager.shouldSendAlert`: fires (and stamps
`lastAlertTime := now`, bumping the count) when the key has no state yet or
its cooldown has elapsed; otherwise suppresses and leaves the table
untouched. -/
def shouldSendAlert (st : AlertStates) (key : String) (now : Int) :
    Bool × AlertStates :=
  match st key with
  | none => (true, setState st key { lastAlertTime := now, alertCount := 1 })
  | some s =>
    if now - s.lastAlertTime > COOLDOWN_MS then
      (true, setState st key { lastAlertTime := now, alertCount := s.alertCount + 1 })
    else (false, st)

/-- The current-window metrics consumed by `checkAndAlert`, mirroring the
fields it reads from `getCurrentWindowMetrics` plus the provider table. -/
structure WindowMetrics where
  requests : Nat
  errors : Nat
  errorRate : ℚ
  rateLimitBreaches : Nat
  providers : List (String × CircuitBreaker.CircuitState × Nat)

/-- Embeds `AlertManager.checkAndAlert`: evaluates the three conditions
(error rate, open circuits, rate-limit breaches) in source order, gating each
through `shouldSendAlert`, and returns the keys of the notifications produced
together with the cooldown table after the call. -/
def checkAndAlert (st : AlertStates) (m : WindowMetrics) (now : Int) :
    List String × AlertStates :=
  let step1 : List String × AlertStates :=
    if ERROR_RATE_THRESHOLD ≤ m.errorRate ∧ 10 ≤ m.requests then
      let r := shouldSendAlert st "high_error_rate" now
      (if r.1 then ["high_error_rate"] else [], r.2)
    else ([], st)
  let step2 : List String × AlertStates :=
    List.foldl
      (fun acc p =>
        if p.2.1 = CircuitBreaker.CircuitState.OPEN then
          let r := shouldSendAlert acc.2 (String.append "circuit_open_" p.1) now
          (acc.1 ++ (if r.1 then [String.append "circuit_open_" p.1] else []), r.2)
        else acc)
      step1 m.providers
  if RATE_LIMIT_BREACH_THRESHOLD ≤ m.rateLimitBreaches then
    let r := shouldSendAlert step2.2 "excessive_rate_limits" now
    (step2.1 ++ (if r.1 then ["excessive_rate_limits"] else []), r.2)
  else step2

end AlertManager

namespace RateLimiter

/-- Claim C1: once the cached entry for a user has recorded `DAILY_LIMIT` (50)
admitted requests within one 24-hour window, and the entry is neither
refreshed (cache still fresh) nor reset (window not expired), the next
`checkLimit` call returns `allowed = false` with `remaining = 0` and leaves
the entry — in particular its count — unchanged. -/
theorem checkLimit_denies_after_daily_limit (entry : RateLimitEntry)
    (read : Except Unit (Option Nat)) (writeOk : Bool) (now : Int)
    (hcount : entry.count = DAILY_LIMIT)
    (hfresh : now - entry.lastUpdated ≤ CACHE_TTL_MS)
    (hwin : now - entry.windowStart ≤ WINDOW_MS) :
    checkLimit (some entry) read writeOk now = ((false, 0), entry) := by
  have h1 : ¬ (CACHE_TTL_MS < now - entry.lastUpdated) := not_lt.mpr hfresh
  have h2 : ¬ (WINDOW_MS < now - entry.windowStart) := not_lt.mpr hwin
  simp [checkLimit, h1, h2, hcount, DAILY_LIMIT]

/-- Witness for C1 at a concrete saturated entry. -/
theorem checkLimit_denies_after_daily_limit_witness :
    checkLimit (some { count := 50, windowStart := 0, lastUpdated := 0, dbSyncCount := 0 })
        (Except.ok none) true 30 =
      ((false, 0), { count := 50, windowStart := 0, lastUpdated := 0, dbSyncCount := 0 }) :=
  checkLimit_denies_after_daily_limit
    { count := 50, windowStart := 0, lastUpdated := 0, dbSyncCount := 0 }
    (Except.ok none) true 30 (by decide) (by decide) (by decide)

/-- Claim C9: durable-store failures never propagate out of the rate limiter.
The admission decision does not depend on the write outcome (`syncToDB`
swallows write errors), a failing read behaves exactly like a missing row —
`checkLimit` proceeds on a fresh zero-count entry — and `fetchFromDB` maps a
read error to that fresh entry.  `checkLimit` is a total function, so an
admission decision is always returned. -/
theorem checkLimit_store_failures_fail_open (cache : Option RateLimitEntry)
    (read : Except Unit (Option Nat)) (w w2 : Bool) (now : Int) :
    checkLimit cache read w now = checkLimit cache read w2 now ∧
    checkLimit cache (Except.error ()) w now = checkLimit cache (Except.ok none) w now ∧
    fetchFromDB (Except.error ()) now =
      { count := 0, windowStart := now, lastUpdated := now, dbSyncCount := 0 } := by
  refine ⟨?_, ?_, rfl⟩
  · cases cache <;> rfl
  · cases cache <;> rfl

end RateLimiter

namespace IPRateLimiter

/-- Claim C10: an empty source address is never rate limited and consumes no
quota: `checkLimit` on the empty IP string returns `allowed = true` with no
reason and returns the cache exactly as given, for every cache and clock. -/
theorem checkLimit_empty_ip (cache : IPCache) (now : Int) :
    checkLimit cache "" now = ((true, none), cache) := rfl

end IPRateLimiter

namespace IPRateLimiter

set_option maxRecDepth 4000 in
/-- Counterexample to claim C6 as stated: admit exactly 50 requests for IP
`1.2.3.4` at time 0 (the entry then records `count = 50` with the window
anchored at 0), and call `checkLimit` again at time 5000, inside the 10-second
sub-window.  The burst check of the source is strict (`count > BURST_LIMIT`),
so this 51st call is admitted with no reason — not rejected with the burst
reason as the claim requires. -/
theorem checkLimit_burst_at_50_counterexample :
    (admitIter emptyCache "1.2.3.4" 0 50) "1.2.3.4" =
      some { count := 50, windowStart := 0, violations := 0 } ∧
    (checkLimit (admitIter emptyCache "1.2.3.4" 0 50) "1.2.3.4" 5000).1 =
      (true, none) := by
  constructor
  · decide
  · decide

/-- Claim C6 as amended: once strictly more than `BURST_LIMIT` (50) requests
have been admitted within the 10-second sub-window — that is, from the call
after the 51st admission onward — `checkLimit` inside the sub-window rejects
with the distinct burst reason and increments that entry's violation counter,
leaving its count unchanged; and the violation counter itself never causes a
rejection (the decision and reason are the same for entries differing only in
`violations`). -/
theorem checkLimit_burst_above_50 (cache : IPCache) (ip : String)
    (e : IPRateLimitEntry) (now : Int)
    (hip : ip ≠ "") (hc : cache ip = some e) (hcount : BURST_LIMIT < e.count)
    (hburst : now - e.windowStart < BURST_WINDOW_MS) :
    checkLimit cache ip now =
      ((false, some "Burst traffic detected. Please slow down."),
        setEntry cache ip
          { count := e.count, windowStart := e.windowStart,
            violations := e.violations + 1 }) ∧
    ∀ (v : Nat) (cache2 : IPCache), cache2 ip = some
        { count := e.count, windowStart := e.windowStart, violations := v } →
      (checkLimit cache2 ip now).1 = (checkLimit cache ip now).1 := by
  have hwinNot : ¬ (WINDOW_MS < now - e.windowStart) := by
    intro h
    have : BURST_WINDOW_MS < WINDOW_MS := by decide
    omega
  constructor
  · simp only [checkLimit, hc, if_neg hip]
    rw [if_neg hwinNot]
    rw [if_pos ⟨hcount, hburst⟩]
  · intro v cache2 hc2
    simp only [checkLimit, hc, hc2, if_neg hip]
    rw [if_neg hwinNot, if_neg hwinNot]
    rw [if_pos ⟨hcount, hburst⟩, if_pos ⟨hcount, hburst⟩]

/-- Witness for the amended C6 at a concrete entry with 51 admitted
requests. -/
theorem checkLimit_burst_above_50_witness :
    (checkLimit (setEntry emptyCache "1.2.3.4"
        { count := 51, windowStart := 0, violations := 3 }) "1.2.3.4" 500).1 =
      (false, some "Burst traffic detected. Please slow down.") := by
  have h := checkLimit_burst_above_50
    (setEntry emptyCache "1.2.3.4" { count := 51, windowStart := 0, violations := 3 })
    "1.2.3.4" { count := 51, windowStart := 0, violations := 3 } 500
    (by decide) (by decide) (by decide) (by decide)
  rw [h.1]

end IPRateLimiter

namespace CircuitBreaker

/-- Claim C2: for a circuit with no recorded failures in the CLOSED state,
five (`FAILURE_THRESHOLD`) consecutive operation failures reported through
`execute` leave the circuit OPEN with `failures = 5` and
`lastFailureTime = t5`, and every subsequent `execute` call made while the
open timeout has not elapsed is rejected with the circuit-open error stating
the remaining wait time, without invoking the supplied operation (third
component `false`) and without changing the circuit. -/
theorem execute_opens_after_threshold (c : CBState) (t1 t2 t3 t4 t5 : Int)
    (hs : c.state = CircuitState.CLOSED) (hf : c.failures = 0) :
    (failSeq c [t1, t2, t3, t4, t5]).state = CircuitState.OPEN ∧
    (failSeq c [t1, t2, t3, t4, t5]).failures = FAILURE_THRESHOLD ∧
    (failSeq c [t1, t2, t3, t4, t5]).lastFailureTime = t5 ∧
    ∀ (t : Int) (r : Except Unit Unit), t - t5 ≤ TIMEOUT_MS →
      execute (failSeq c [t1, t2, t3, t4, t5]) t r =
        (CBResult.rejectedOpen (ceilSeconds (TIMEOUT_MS - (t - t5))),
          failSeq c [t1, t2, t3, t4, t5], false) := by
  obtain ⟨st, f, lf, ls⟩ := c
  simp only at hs hf
  subst hs
  subst hf
  have hrun : failSeq
      { state := CircuitState.CLOSED, failures := 0, lastFailureTime := lf,
        lastSuccessTime := ls } [t1, t2, t3, t4, t5] =
      { state := CircuitState.OPEN, failures := 5, lastFailureTime := t5,
        lastSuccessTime := ls } := rfl
  rw [hrun]
  refine ⟨rfl, rfl, rfl, ?_⟩
  intro t r ht
  have hcond : ¬ (TIMEOUT_MS < t - t5) := not_lt.mpr ht
  simp [execute, openCheck, hcond]

/-- Witness for C2: a fresh circuit failed at times 1..5, probed at time 6
with an operation that would succeed; the probe is rejected without invoking
the operation. -/
theorem execute_opens_after_threshold_witness :
    (failSeq (initCircuit 0) [1, 2, 3, 4, 5]).state = CircuitState.OPEN ∧
    execute (failSeq (initCircuit 0) [1, 2, 3, 4, 5]) 6 (Except.ok ()) =
      (CBResult.rejectedOpen (ceilSeconds (TIMEOUT_MS - (6 - 5))),
        failSeq (initCircuit 0) [1, 2, 3, 4, 5], false) := by
  have h := execute_opens_after_threshold (initCircuit 0) 1 2 3 4 5 rfl rfl
  exact ⟨h.1, h.2.2.2 6 (Except.ok ()) (by decide)⟩

/-- Claim C5: a circuit in the OPEN state transitions to HALF_OPEN on a call
attempt exactly when strictly more than `TIMEOUT_MS` has elapsed since
`lastFailureTime`, with the failure counter reset to 0 at that transition
(the iff); and every call attempt at or before that point is rejected and
leaves the circuit unchanged, still OPEN. -/
theorem openCheck_half_open_timing (c : CBState) (now : Int)
    (hs : c.state = CircuitState.OPEN) :
    ((∃ c1, openCheck c now = Except.ok c1 ∧ c1.state = CircuitState.HALF_OPEN ∧
        c1.failures = 0) ↔ TIMEOUT_MS < now - c.lastFailureTime) ∧
    (now - c.lastFailureTime ≤ TIMEOUT_MS →
      ∀ r : Except Unit Unit,
        execute c now r =
          (CBResult.rejectedOpen (ceilSeconds (TIMEOUT_MS - (now - c.lastFailureTime))),
            c, false)) := by
  constructor
  · constructor
    · intro hex
      obtain ⟨c1, hok, _, _⟩ := hex
      by_contra hno
      have hcond : ¬ (TIMEOUT_MS < now - c.lastFailureTime) := hno
      simp [openCheck, hs, hcond] at hok
    · intro hlt
      refine ⟨{ c with state := CircuitState.HALF_OPEN, failures := 0 }, ?_, rfl, rfl⟩
      simp [openCheck, hs, hlt]
  · intro hle r
    have hcond : ¬ (TIMEOUT_MS < now - c.lastFailureTime) := not_lt.mpr hle
    simp [execute, openCheck, hs, hcond]

/-- Witness for C5: an OPEN circuit probed exactly at the timeout boundary is
still rejected with the stated wait and left unchanged. -/
theorem openCheck_half_open_timing_witness :
    execute { state := CircuitState.OPEN, failures := 5, lastFailureTime := 0, lastSuccessTime := 0 } 60000 (Except.ok () : Except Unit Unit) =
      (CBResult.rejectedOpen (ceilSeconds (TIMEOUT_MS - (60000 - 0))),
        { state := CircuitState.OPEN, failures := 5, lastFailureTime := 0, lastSuccessTime := 0 }, false) := by
  have h := openCheck_half_open_timing
    { state := CircuitState.OPEN, failures := 5, lastFailureTime := 0, lastSuccessTime := 0 } 60000 rfl
  exact h.2 (by decide) (Except.ok ())

end CircuitBreaker

namespace RequestQueue

/-- Settling an operation keeps the in-flight count within the concurrency
limit and never lengthens the waiting list. -/
theorem settle_bounds (s : QueueState)
    (h : s.processing ≤ MAX_CONCURRENT_PER_USER) :
    (settle s).processing ≤ MAX_CONCURRENT_PER_USER ∧
    (settle s).queue.length ≤ s.queue.length := by
  obtain ⟨p, q, z⟩ := s
  have h1 : p ≤ MAX_CONCURRENT_PER_USER := h
  cases q with
  | nil =>
    have hs : settle { processing := p, queue := [], zombies := z } =
        { processing := p - 1, queue := [], zombies := z } := rfl
    rw [hs]
    exact ⟨(by omega : p - 1 ≤ MAX_CONCURRENT_PER_USER), Nat.le_refl 0⟩
  | cons a rest =>
    have hs : settle { processing := p, queue := a :: rest, zombies := z } =
        if p - 1 < MAX_CONCURRENT_PER_USER then
          { processing := p - 1 + 1, queue := rest, zombies := z }
        else { processing := p - 1, queue := a :: rest, zombies := z } := rfl
    rw [hs]
    by_cases hp : p - 1 < MAX_CONCURRENT_PER_USER
    · rw [if_pos hp]
      refine ⟨(by omega : p - 1 + 1 ≤ MAX_CONCURRENT_PER_USER), ?_⟩
      show rest.length ≤ (a :: rest).length
      have hlen : (a :: rest).length = rest.length + 1 := rfl
      rw [hlen]
      omega
    · rw [if_neg hp]
      exact ⟨(by omega : p - 1 ≤ MAX_CONCURRENT_PER_USER), Nat.le_refl _⟩

/-- One step of the queue preserves the concurrency and waiting-list bounds. -/
theorem step_preserves_inv (s : QueueState) (e : QEvent) (h : QInv s) :
    QInv (step s e) := by
  obtain ⟨h1, h2⟩ := h
  cases e with
  | enqueue now =>
    simp only [step, enqueue]
    split_ifs with hp hq
    · exact ⟨hp, h2⟩
    · exact ⟨h1, h2⟩
    · refine ⟨h1, ?_⟩
      simp only [List.length_append, List.length_cons, List.length_nil]
      omega
  | complete =>
    have hb := settle_bounds s h1
    exact ⟨hb.1, le_trans hb.2 h2⟩
  | timeout =>
    have hb := settle_bounds s h1
    exact ⟨hb.1, le_trans hb.2 h2⟩

/-- Every state reachable by the queue's step relation satisfies both
bounds. -/
theorem runQ_inv (evs : List QEvent) : QInv (runQ evs) := by
  have hgen : ∀ (l : List QEvent) (s : QueueState), QInv s → QInv (List.foldl step s l) := by
    intro l
    induction l with
    | nil => intro s h; exact h
    | cons e rest ih =>
      intro s h
      exact ih (step s e) (step_preserves_inv s e h)
  exact hgen evs initState ⟨by decide, by decide⟩

/-- Claim C3: in every state reachable from the empty queue by enqueue,
completion and timeout events, at most `MAX_CONCURRENT_PER_USER` (3) enqueued
operations are in flight.  Timed-out operations keep running only as zombies
(their results are discarded); they are not counted. -/
theorem queue_concurrency_bound (evs : List QEvent) :
    (runQ evs).processing ≤ MAX_CONCURRENT_PER_USER :=
  (runQ_inv evs).1

/-- Claim C4: with the concurrency limit saturated and `MAX_QUEUE_SIZE` (10)
entries already waiting, a further `enqueue` call fails fast with the
queue-full rejection and leaves the state unchanged — no waiting entry is
added — and consequently the waiting list never exceeds `MAX_QUEUE_SIZE`
entries in any reachable state. -/
theorem enqueue_queue_full_fail_fast (s : QueueState) (now : Int)
    (hp : MAX_CONCURRENT_PER_USER ≤ s.processing)
    (hq : MAX_QUEUE_SIZE ≤ s.queue.length) :
    enqueue s now = (EnqueueOutcome.rejectedFull, s) ∧
    ∀ evs : List QEvent, (runQ evs).queue.length ≤ MAX_QUEUE_SIZE := by
  constructor
  · simp only [enqueue]
    rw [if_neg (not_lt.mpr hp), if_pos hq]
  · intro evs
    exact (runQ_inv evs).2

/-- Witness for C4 at a saturated concrete state. -/
theorem enqueue_queue_full_fail_fast_witness :
    enqueue { processing := 3, queue := [0, 1, 2, 3, 4, 5, 6, 7, 8, 9], zombies := 0 } 99 =
      (EnqueueOutcome.rejectedFull,
        { processing := 3, queue := [0, 1, 2, 3, 4, 5, 6, 7, 8, 9], zombies := 0 }) :=
  (enqueue_queue_full_fail_fast
    { processing := 3, queue := [0, 1, 2, 3, 4, 5, 6, 7, 8, 9], zombies := 0 } 99
    (by decide) (by decide)).1

end RequestQueue

namespace AlertManager

/-- A key whose state is absent or whose cooldown has elapsed fires, stamping
`lastAlertTime := now`. -/
theorem shouldSendAlert_fires (st : AlertStates) (key : String) (t : Int)
    (h : st key = none ∨
      ∃ s0, st key = some s0 ∧ COOLDOWN_MS < t - s0.lastAlertTime) :
    ∃ n : Nat, shouldSendAlert st key t =
      (true, setState st key { lastAlertTime := t, alertCount := n }) := by
  rcases h with hnone | ⟨s0, hsome, hcd⟩
  · refine ⟨1, ?_⟩
    simp only [shouldSendAlert, hnone]
  · refine ⟨s0.alertCount + 1, ?_⟩
    simp only [shouldSendAlert, hsome]
    rw [if_pos hcd]

/-- A key stamped at `t1` is suppressed by any call at `t2` within the
cooldown, and the table is left untouched. -/
theorem shouldSendAlert_suppresses (st : AlertStates) (key : String)
    (t1 t2 : Int) (n : Nat)
    (h : st key = some { lastAlertTime := t1, alertCount := n })
    (hwithin : t2 - t1 ≤ COOLDOWN_MS) :
    shouldSendAlert st key t2 = (false, st) := by
  simp only [shouldSendAlert, h]
  rw [if_neg]
  intro hlt
  exact absurd hlt (not_lt.mpr hwithin)

/-- Claim C7: if an alert key fires at `t1` (no state yet, or cooldown
elapsed) and its condition holds again at `t2` within the cooldown window,
exactly one notification is produced: the first call fires and records
`lastAlertTime = t1`, the second is suppressed and leaves the table
unchanged.  Moreover, through `checkAndAlert` with the error-rate condition
true both times, the first invocation emits exactly the one
`high_error_rate` notification and the second emits none. -/
theorem alert_cooldown_fires_once (st : AlertStates) (key : String)
    (t1 t2 : Int)
    (hfirst : st key = none ∨
      ∃ s0, st key = some s0 ∧ COOLDOWN_MS < t1 - s0.lastAlertTime)
    (hwithin : t2 - t1 ≤ COOLDOWN_MS) :
    (shouldSendAlert st key t1).1 = true ∧
    (((shouldSendAlert st key t1).2 key).map AlertState.lastAlertTime = some t1) ∧
    shouldSendAlert (shouldSendAlert st key t1).2 key t2 =
      (false, (shouldSendAlert st key t1).2) ∧
    ∀ m : WindowMetrics, ERROR_RATE_THRESHOLD ≤ m.errorRate → 10 ≤ m.requests →
      m.providers = [] → m.rateLimitBreaches < RATE_LIMIT_BREACH_THRESHOLD →
      st "high_error_rate" = none →
      (checkAndAlert st m t1).1 = ["high_error_rate"] ∧
      (checkAndAlert (checkAndAlert st m t1).2 m t2).1 = [] := by
  obtain ⟨n, heq⟩ := shouldSendAlert_fires st key t1 hfirst
  have hkey : (setState st key { lastAlertTime := t1, alertCount := n }) key =
      some { lastAlertTime := t1, alertCount := n } := by
    simp [setState]
  refine ⟨by rw [heq], ?_, ?_, ?_⟩
  · rw [heq]
    simp only [hkey]
    rfl
  · rw [heq]
    exact shouldSendAlert_suppresses _ key t1 t2 n hkey hwithin
  · intro m h1 h2 h3 h4 h5
    have h4n : ¬ (RATE_LIMIT_BREACH_THRESHOLD ≤ m.rateLimitBreaches) := not_le.mpr h4
    have hr1 : shouldSendAlert st "high_error_rate" t1 =
        (true, setState st "high_error_rate" { lastAlertTime := t1, alertCount := 1 }) := by
      simp only [shouldSendAlert, h5]
    have hca1 : checkAndAlert st m t1 =
        (["high_error_rate"],
          setState st "high_error_rate" { lastAlertTime := t1, alertCount := 1 }) := by
      simp only [checkAndAlert, h3, List.foldl_nil, hr1, h4n, if_false]
      rw [if_pos ⟨h1, h2⟩]
      simp
    have hs1 : (setState st "high_error_rate" { lastAlertTime := t1, alertCount := 1 })
        "high_error_rate" = some { lastAlertTime := t1, alertCount := 1 } := by
      simp [setState]
    have hr2 : shouldSendAlert
        (setState st "high_error_rate" { lastAlertTime := t1, alertCount := 1 })
        "high_error_rate" t2 =
        (false, setState st "high_error_rate" { lastAlertTime := t1, alertCount := 1 }) :=
      shouldSendAlert_suppresses _ "high_error_rate" t1 t2 1 hs1 hwithin
    have hca2 : checkAndAlert
        (setState st "high_error_rate" { lastAlertTime := t1, alertCount := 1 }) m t2 =
        ([], setState st "high_error_rate" { lastAlertTime := t1, alertCount := 1 }) := by
      simp only [checkAndAlert, h3, List.foldl_nil, hr2, h4n, if_false]
      rw [if_pos ⟨h1, h2⟩]
      simp
    rw [hca1]
    exact ⟨rfl, by rw [hca2]⟩

/-- Witness for C7 at a fresh table and key. -/
theorem alert_cooldown_fires_once_witness :
    (shouldSendAlert (fun _ => none) "high_error_rate" 0).1 = true ∧
    shouldSendAlert (shouldSendAlert (fun _ => none) "high_error_rate" 0).2
        "high_error_rate" 60000 =
      (false, (shouldSendAlert (fun _ => none) "high_error_rate" 0).2) := by
  have h := alert_cooldown_fires_once (fun _ => none) "high_error_rate" 0 60000
    (Or.inl rfl) (by decide)
  exact ⟨h.1, h.2.2.1⟩

end AlertManager

namespace MetricsCollector

/-- Exact-arithmetic form of the source's `Math.ceil((p / 100) * n)`: the
`Nat` formula `(a + 99) / 100` computes the ceiling of `a / 100` over the
rationals. -/
theorem ceil_cast_div_100 (a : Nat) :
    Nat.ceil ((a : ℚ) / 100) = (a + 99) / 100 := by
  have h100 : (0 : ℚ) < 100 := by norm_num
  apply le_antisymm
  · rw [Nat.ceil_le, div_le_iff₀ h100]
    have hd : 100 * ((a + 99) / 100) + (a + 99) % 100 = a + 99 :=
      Nat.div_add_mod (a + 99) 100
    have hm : (a + 99) % 100 < 100 := Nat.mod_lt _ (by norm_num)
    have hle : a ≤ ((a + 99) / 100) * 100 := by omega
    exact_mod_cast hle
  · have hc : (a : ℚ) / 100 ≤ (Nat.ceil ((a : ℚ) / 100) : ℚ) := Nat.le_ceil _
    rw [div_le_iff₀ h100] at hc
    have hle : a ≤ Nat.ceil ((a : ℚ) / 100) * 100 := by exact_mod_cast hc
    omega

/-- Claim C8: `calculatePercentile` returns 0 on an empty list; on a nonempty
list it sorts the latencies ascending and returns the element at index
`ceil(p / 100 * n) - 1` (clamped to at least 0 by `Nat` subtraction); in
particular, on `[10, 20, 30, 40, 50]` both the 95th and the 99th percentile
are 50. -/
theorem calculatePercentile_spec :
    (∀ p : Nat, calculatePercentile [] p = 0) ∧
    calculatePercentile [10, 20, 30, 40, 50] 95 = 50 ∧
    calculatePercentile [10, 20, 30, 40, 50] 99 = 50 ∧
    ∀ (l : List Nat) (p : Nat), l ≠ [] →
      calculatePercentile l p =
        (List.insertionSort (fun a b => a ≤ b) l).getD
          (Nat.ceil ((p : ℚ) / 100 * l.length) - 1) 0 := by
  refine ⟨fun p => rfl, by decide, by decide, ?_⟩
  intro l p hne
  have hlen : ¬ (l.length = 0) := by
    simpa using hne
  have hcast : ((p : ℚ) / 100 * l.length) = ((p * l.length : ℕ) : ℚ) / 100 := by
    push_cast
    ring
  rw [calculatePercentile, if_neg hlen, hcast, ceil_cast_div_100]

/-- Witness for C8 on a concrete nonempty list. -/
theorem calculatePercentile_spec_witness :
    ([10, 20, 30, 40, 50] : List Nat) ≠ [] ∧
    calculatePercentile [10, 20, 30, 40, 50] 95 =
      (List.insertionSort (fun a b => a ≤ b) [10, 20, 30, 40, 50]).getD
        (Nat.ceil ((95 : ℚ) / 100 * ([10, 20, 30, 40, 50] : List Nat).length) - 1) 0 := by
  constructor
  · decide
  · exact calculatePercentile_spec.2.2.2 [10, 20, 30, 40, 50] 95 (by decide)

end MetricsCollector
